import Mathlib

/-!
# Verification of the FastReverseProxy request dispatcher

A shallow embedding of `proxy/fastreverseproxy.go` (package `proxy` of the
gorouter repository).  The dispatcher `ServeHTTP` is modelled as the pure
function `serveHTTP` below, threading one mutable request state (in the Go
code `backendReq := req` copies the *pointer*, so `backendReq` and `req`
alias the same object; the model therefore threads a single `Request`
value through every mutation) and recording the observable effects
(responder invoked, backend attempts issued, hook firings, continuation
calls) in a `ServeResult` trace.

External collaborators (registry, route-service config, the HTTP client,
the signer) are supplied as an `Env` of functions.  Constants and helpers
of this repository that are not part of the given source file
(`upgradeHeader`, `setupProxyRequest`, `hasBeenToRouteService`, header and
cookie name constants) are modelled from the specification; each such
definition says so in its doc comment.
-/

/-- Request headers, as written/read by `http.Header.Set/Get/Del` on the
outbound request: an association list of key/value pairs (Go stores a map
`string → []string`; the dispatcher only ever uses single-valued `Set`,
`Get` — first value — and `Del` on the request, so single values suffice). -/
abbrev ReqHeader := List (String × String)

/-- Model of `http.Header.Get`: first value for the key, `""` when absent. -/
def hGet : ReqHeader → String → String
  | [], _ => ""
  | p :: t, k => if p.1 == k then p.2 else hGet t k

/-- Model of `http.Header.Del`: remove every entry for the key. -/
def hDel : ReqHeader → String → ReqHeader
  | [], _ => []
  | p :: t, k => if p.1 == k then hDel t k else p :: hDel t k

/-- Model of `http.Header.Set`: replace the key's entries with the single value. -/
def hSet (h : ReqHeader) (k v : String) : ReqHeader :=
  (k, v) :: hDel h k

/-- Whether the key is present at all. -/
def hHas : ReqHeader → String → Bool
  | [], _ => false
  | p :: t, k => p.1 == k || hHas t k

/-- Response headers: Go's `map[string][]string` with unique keys, as read
from `backendResp.Header` and written into `rw.Header()`. -/
abbrev RespHeader := List (String × List String)

/-- Remove every entry for a key from a response header map. -/
def respDel : RespHeader → String → RespHeader
  | [], _ => []
  | p :: t, k => if p.1 == k then respDel t k else p :: respDel t k

/-- Model of `rw.Header().Set(k, v)` on the response side: the key's value list
becomes the single-element list `[v]`. -/
def respSet (h : RespHeader) (k v : String) : RespHeader :=
  (k, [v]) :: respDel h k

/-- Source `HopHeaders` (fastreverseproxy.go lines 27-37): hop-by-hop headers
removed when sent to the backend. -/
def hopHeaders : List String :=
  ["Connection", "Proxy-Connection", "Keep-Alive", "Proxy-Authenticate",
   "Proxy-Authorization", "Te", "Trailer", "Transfer-Encoding", "Upgrade"]

/-- Source `xForwardedForKey` (line 39). -/
def xForwardedForKey : String := "X-Forwarded-For"

/-- Source `maxRetries` (line 42). -/
def maxRetries : Nat := 3

/-- Modelled from the spec: the three route-service protocol header names
are external constants of the `routeservice` package (not under src/);
§6 "Route-service protocol headers (three, names treated as external
constants): signature, metadata, forwarded-url".  Only their distinctness
matters to the dispatcher. -/
def routeServiceSignature : String := "X-CF-Proxy-Signature"

/-- Modelled from the spec: external route-service metadata header name. -/
def routeServiceMetadata : String := "X-CF-Proxy-Metadata"

/-- Modelled from the spec: external route-service forwarded-url header name. -/
def routeServiceForwardedUrl : String := "X-CF-Forwarded-Url"

/-- Modelled from the spec: the instance-id header name
(`router_http.CfInstanceIdHeader`, external constant, §6 "an instance-id
header"). -/
def cfInstanceIdHeader : String := "X-CF-InstanceID"

/-- Modelled from the spec: the sticky-session marker cookie name
(`StickyCookieKey`, defined elsewhere in the `proxy` package; §6 "a marker
cookie ... names external constants"). -/
def stickyCookieKey : String := "JSESSIONID"

/-- Modelled from the spec: the sticky-session affinity cookie name
(`VcapCookieId`, external constant; its value is the preferred endpoint id). -/
def vcapCookieId : String := "__VCAP_ID__"

/-- One backend instance (`route.Endpoint`): address, application id,
private-instance id. -/
structure Endpoint where
  applicationId : String
  privateInstanceId : String
  canonicalAddr : String
deriving DecidableEq, Repr

/-- Model of `routeservice.RouteServiceRequest`: the signed envelope produced by the
external signer. -/
structure RouteServiceReq where
  urlString : String
  signature : String
  metadata : String
  forwardedURL : String
deriving DecidableEq, Repr

/-- A backend `http.Response` as consumed by the dispatcher. -/
structure Response where
  statusCode : Nat
  headers : RespHeader
  trailer : RespHeader
  body : String
deriving DecidableEq, Repr

/-- Go error values flowing through the dispatcher: the distinguished
`handler.NoEndpointsAvailable` sentinel and arbitrary message-bearing
errors (transport errors, validator causes, signer causes). -/
inductive GoErr where
  | noEndpointsAvailable
  | mk (msg : String)
deriving DecidableEq, Repr

/-- Model of `err.Error()`: the message of an error.  The text of the external
`handler.NoEndpointsAvailable` sentinel is irrelevant to the dispatcher
(it is never classified by `retryableError`, because `selectEndpoint`
failure breaks the loop before classification). -/
def GoErr.message : GoErr → String
  | .noEndpointsAvailable => "No endpoints available"
  | .mk m => m

/-- The inbound `*http.Request` as the dispatcher observes and mutates it.
`urlHost` is `req.URL.Host` (the destination the `http.Client` dials),
`cookies` models the parsed cookie list behind `req.Cookie`. -/
structure Request where
  protoMajor : Nat
  protoMinor : Nat
  host : String
  requestURI : String
  escapedPath : String
  urlHost : String
  remoteAddr : String
  tls : Bool
  headers : ReqHeader
  cookies : List (String × String)
deriving DecidableEq, Repr

/-- Replace the header map (the single mutable field touched by header
operations on the aliased request). -/
def Request.setHeaders (r : Request) (h : ReqHeader) : Request :=
  { r with headers := h }

/-- The set of endpoints backing one routable URI plus its optional
route-service URL (`route.Pool`).  `endpoints` is the sequence the pool's
load-balancing iterator yields for this request; ordering policy
(strategy, sticky preference) belongs to the external registry. -/
structure Pool where
  endpoints : List Endpoint
  routeServiceUrl : String
deriving DecidableEq, Repr

/-- Character-list matcher: does `pat` begin `l`?  (Plain recursion instead
of the library matcher, so results compute by `decide`.) -/
def leadsWith : List Char → List Char → Bool
  | [], _ => true
  | _ :: _, [] => false
  | a :: as, b :: bs => a == b && leadsWith as bs

/-- Model of `strings.Contains(s, pat)`: some suffix of `s` starts with `pat`. -/
def containsSeq (pat : List Char) : List Char → Bool
  | [] => leadsWith pat []
  | c :: rest => leadsWith pat (c :: rest) || containsSeq pat rest

/-- Model of `strings.Contains` on strings. -/
def strContains (s pat : String) : Bool :=
  containsSeq pat.toList s.toList

/-- Source `retryableError` (lines 318-321): an attempt error is retried exactly
when its message contains the substring `"dial"`. -/
def retryableError (e : GoErr) : Bool :=
  strContains e.message "dial"

/-- Source `hostWithoutPort` (lines 505-515): truncate at the first `":"`. -/
def hostWithoutPort (host : String) : String :=
  String.mk (host.toList.takeWhile (fun c => !(c == ':')))

/-- Source `isProtocolSupported` (lines 527-529). -/
def isProtocolSupported (r : Request) : Bool :=
  r.protoMajor == 1 && (r.protoMinor == 0 || r.protoMinor == 1)

/-- Model of `request.Cookie(name)`: the first cookie with that name, or an error
(modelled as `none`) when absent — a model of the net/http cookie parser. -/
def Request.cookie (r : Request) (name : String) : Option (String × String) :=
  r.cookies.find? (fun c => c.1 == name)

/-- Source `getStickySession` (lines 531-539): the affinity cookie's value when
both the marker cookie and the affinity cookie are present, else `""`. -/
def getStickySession (r : Request) : String :=
  match r.cookie stickyCookieKey with
  | some _ =>
    match r.cookie vcapCookieId with
    | some sticky => sticky.2
    | none => ""
  | none => ""

/-- Modelled from the spec: `upgradeHeader` is repository code not under
src/; §4.6 "Classify purely from the `Upgrade` header value". -/
def upgradeHeader (r : Request) : String :=
  hGet r.headers "Upgrade"

/-- Model of `strings.ToLower` restricted to ASCII header values (a computable model
of the library call). -/
def strToLower (s : String) : String :=
  String.mk (s.toList.map Char.toLower)

/-- Source `isWebSocketUpgrade` (lines 541-544): case-insensitive per RFC6455. -/
def isWebSocketUpgrade (r : Request) : Bool :=
  strToLower (upgradeHeader r) == "websocket"

/-- Source `isTcpUpgrade` (lines 546-548). -/
def isTcpUpgrade (r : Request) : Bool :=
  upgradeHeader r == "tcp"

/-- Source `setupRequest` (lines 492-503): stamp the application-id header and the
instance-id header (private-instance id, or the canonical address when that
id is empty). -/
def setupRequest (r : Request) (e : Endpoint) : Request :=
  let h1 := hSet r.headers "X-CF-ApplicationID" e.applicationId
  let value := if e.privateInstanceId == "" then e.canonicalAddr else e.privateInstanceId
  r.setHeaders (hSet h1 cfInstanceIdHeader value)

/-- Lines 104-106: delete every hop-by-hop header from the (aliased)
request. -/
def stripHopHeaders (r : Request) : Request :=
  r.setHeaders (hopHeaders.foldl hDel r.headers)

/-- A model of `net.SplitHostPort` restricted to what the dispatcher uses:
the client IP of a `host:port` peer address (`none` when no colon is
present, in which case the Go call errors and the fold is skipped; exotic
multi-colon forms are not relevant to any claim). -/
def splitHostPortIp (s : String) : Option String :=
  if s.toList.contains ':' then
    some (String.mk (s.toList.takeWhile (fun c => !(c == ':'))))
  else none

/-- Lines 108-119: fold the client IP into `X-Forwarded-For`. -/
def applyXFF (r : Request) : Request :=
  match splitHostPortIp r.remoteAddr with
  | none => r
  | some clientIP =>
    let prior := hGet r.headers xForwardedForKey
    let v := if prior == "" then clientIP else prior ++ ", " ++ clientIP
    r.setHeaders (hSet r.headers xForwardedForKey v)

/-- Lines 126-134: set `X-Forwarded-Proto` (forced https, or derived from
TLS when absent). -/
def applyXFP (force : Bool) (r : Request) : Request :=
  if force then r.setHeaders (hSet r.headers "X-Forwarded-Proto" "https")
  else if hGet r.headers "X-Forwarded-Proto" == "" then
    let scheme := if r.tls then "https" else "http"
    r.setHeaders (hSet r.headers "X-Forwarded-Proto" scheme)
  else r

/-- Lines 136-137: the routing key `host-without-port + escaped-path`. -/
def requestUri (r : Request) : String :=
  hostWithoutPort r.host ++ r.escapedPath

/-- Lines 195-197: strip the three route-service protocol headers after
successful validation. -/
def delRouteServiceHeaders (r : Request) : Request :=
  r.setHeaders
    (hDel (hDel (hDel r.headers routeServiceSignature) routeServiceMetadata)
      routeServiceForwardedUrl)

/-- Lines 207-209: set the three route-service protocol headers from the
signed envelope. -/
def setRouteServiceHeaders (r : Request) (args : RouteServiceReq) : Request :=
  r.setHeaders
    (hSet (hSet (hSet r.headers routeServiceSignature args.signature)
        routeServiceMetadata args.metadata)
      routeServiceForwardedUrl args.forwardedURL)

/-- The external collaborators and configuration consumed by the
dispatcher: registry lookup, route-service config (enabled flag,
recommend-https policy, validator, signer), the prior-visit check
(repository code not under src/, supplied as an external predicate:
§4.3 "that signature indicates the request has already visited this
specific route-service URL"), and the HTTP client issuing one attempt. -/
structure Env where
  lookup : String → Option Pool
  forceForwardedProtoHttps : Bool
  routeServiceEnabled : Bool
  recommendHttps : Bool
  hasBeenToRouteService : String → String → Bool
  validateSignature : ReqHeader → String → Option GoErr
  signRequest : String → String → Except GoErr RouteServiceReq
  doRequest : Request → Except GoErr Response

/-- The terminal outcome of one dispatch: which responder method was
invoked, or the success path.  Modelled from the spec for the failure
responder interface (the `handler` package is not under src/): §6 names
"one method per failure kind (missing-route, unsupported-protocol,
unsupported-route-service, bad-signature, route-service-failure,
bad-gateway, no-endpoints, tcp-handoff, websocket-handoff)"; the
`noEndpoints` constructor is the dedicated no-endpoints responder of that
contract. -/
inductive Outcome where
  | unsupportedProtocol
  | missingRoute
  | tcpHandoff
  | websocketHandoff
  | unsupportedRouteService
  | badSignature (cause : GoErr)
  | routeServiceFailure (cause : GoErr)
  | badGateway (cause : GoErr)
  | noEndpoints
  | success (resp : Response)
deriving DecidableEq, Repr

/-- Did the dispatch reach the full success path? -/
def Outcome.isSuccess : Outcome → Bool
  | .success _ => true
  | _ => false

/-- How the retry loop ended: a backend response, or the error `err` held
when the loop exited (`selectEndpoint` failure, non-retryable attempt
error, or the last error after the retry budget ran out). -/
inductive LoopExit where
  | ok (resp : Response)
  | fail (e : GoErr)
deriving DecidableEq, Repr

/-- Observable record of the retry loop: its exit, the attempts issued
(each the request snapshot handed to `hc.Do` with that attempt's result),
and the hook firings (after-selection = the `afterNext` closure running
with a non-nil endpoint; pre/post = `iter.PreRequest` / `iter.PostRequest`). -/
structure LoopOut where
  exit : LoopExit
  trace : List (Request × Except GoErr Response)
  afterSel : Nat
  pre : Nat
  post : Nat
deriving Repr

/-- The request as handed to `hc.Do` for one attempt at endpoint `e`
(lines 222-240): `setupRequest` stamps the selection headers, `RequestURI`
is cleared, and in backend mode the destination becomes the endpoint's
canonical address. -/
def attemptReq (backend : Bool) (r : Request) (e : Endpoint) : Request :=
  let r1 := setupRequest r e
  let r2 := { r1 with requestURI := "" }
  if backend then { r2 with urlHost := e.canonicalAddr } else r2

/-- The retry loop (lines 216-255), fuel = remaining iterations of
`for retry := 0; retry < maxRetries; retry++`.  Each iteration advances
the iterator (`selectEndpoint`; exhaustion breaks with
`handler.NoEndpointsAvailable`), stamps selection headers, fires the
pre-attempt hook, clears `RequestURI`, sets the destination to the
endpoint's address only in backend mode (line 238-240), issues the
attempt, fires the post-attempt hook, and stops on success or on a
non-retryable error.  `setupProxyRequest` (line 235) is repository code
not under src/; modelled from the spec, which attributes no effect on the
tracked fields to it (and its `(req, backendReq, false)` arguments give it
no access to the route-service URL), so it contributes nothing to
`attemptReq`.  `lastErr` carries the Go `err` variable across iterations
for the exit after fuel runs out. -/
def runLoop (env : Env) (backend : Bool) :
    Nat → List Endpoint → Request → Option GoErr → LoopOut
  | 0, _, _, lastErr =>
    ⟨.fail (lastErr.getD GoErr.noEndpointsAvailable), [], 0, 0, 0⟩
  | Nat.succ fuel, eps, r, _ =>
    match eps with
    | [] => ⟨.fail GoErr.noEndpointsAvailable, [], 0, 0, 0⟩
    | e :: rest =>
      match env.doRequest (attemptReq backend r e) with
      | .ok resp => ⟨.ok resp, [(attemptReq backend r e, .ok resp)], 1, 1, 1⟩
      | .error er =>
        if retryableError er then
          let tail := runLoop env backend fuel rest (attemptReq backend r e) (some er)
          ⟨tail.exit, (attemptReq backend r e, .error er) :: tail.trace,
            tail.afterSel + 1, tail.pre + 1, tail.post + 1⟩
        else ⟨.fail er, [(attemptReq backend r e, .error er)], 1, 1, 1⟩

/-- Everything one dispatch observably does: the terminal outcome, how
many registry lookups ran, the sticky id the iterator was constructed with
(`none` when no iterator was built), hook counts, the attempt trace, and
how many times the continuation `next` ran. -/
structure ServeResult where
  outcome : Outcome
  lookups : Nat
  stickyId : Option String
  afterSel : Nat
  pre : Nat
  post : Nat
  trace : List (Request × Except GoErr Response)
  nextCalls : Nat
deriving Repr

/-- A branch that returns before any backend attempt. -/
def early (o : Outcome) (lookups : Nat) (sticky : Option String) : ServeResult :=
  ⟨o, lookups, sticky, 0, 0, 0, [], 0⟩

/-- Lines 213-315: run the retry loop and finish the dispatch.  A loop
error is delivered through `HandleBadGateway` (plus the literal retry
message written to the client); on success the response is copied and the
continuation `next(rw, req)` runs once. -/
def loopStage (env : Env) (backend : Bool) (sticky : String) (pool : Pool)
    (r : Request) : ServeResult :=
  let lo := runLoop env backend maxRetries pool.endpoints r none
  match lo.exit with
  | .fail e =>
    ⟨.badGateway e, 1, some sticky, lo.afterSel, lo.pre, lo.post, lo.trace, 0⟩
  | .ok resp =>
    ⟨.success resp, 1, some sticky, lo.afterSel, lo.pre, lo.post, lo.trace, 1⟩

/-- Lines 178-186: `forwardedUrlRaw = recommendedScheme://host-without-port
+ original RequestURI`, the URL the signature envelope speaks about. -/
def forwardedUrl (env : Env) (r : Request) : String :=
  (if env.recommendHttps then "https" else "http") ++ "://" ++
    hostWithoutPort r.host ++ r.requestURI

/-- Lines 166-211: the route-service gateway.  With no route-service URL
the backend is called directly.  Otherwise, on a prior visit the signature
is validated (failure → `HandleBadSignature`) and the three protocol
headers are stripped before the backend call; on a first encounter the
signer is called (failure → `HandleRouteServiceFailure`), the three
protocol headers are set from the envelope, and `backend` is set to false
so the loop does not aim the request at an endpoint address. -/
def gatewayStage (env : Env) (pool : Pool) (sticky : String)
    (r : Request) : ServeResult :=
  if pool.routeServiceUrl == "" then loopStage env true sticky pool r
  else
    if env.hasBeenToRouteService pool.routeServiceUrl
        (hGet r.headers routeServiceSignature) then
      match env.validateSignature r.headers (forwardedUrl env r) with
      | some e => early (.badSignature e) 1 (some sticky)
      | none => loopStage env true sticky pool (delRouteServiceHeaders r)
    else
      match env.signRequest pool.routeServiceUrl (forwardedUrl env r) with
      | .error e => early (.routeServiceFailure e) 1 (some sticky)
      | .ok args => loopStage env false sticky pool (setRouteServiceHeaders r args)

/-- Source `ServeHTTP` (lines 83-315).  `backendReq := req` copies the pointer,
so all header mutations act on the one shared request: the model threads a
single `Request` value.  Order follows the source: strip hop-by-hop
headers, fold `X-Forwarded-For`, protocol check, `X-Forwarded-Proto`,
registry lookup, sticky-session resolution and iterator construction,
upgrade classification, route-service gateway, retry loop. -/
def serveHTTP (env : Env) (req : Request) : ServeResult :=
  let r0 := applyXFF (stripHopHeaders req)
  if isProtocolSupported r0 then
    let r1 := applyXFP env.forceForwardedProtoHttps r0
    match env.lookup (requestUri r1) with
    | none => early .missingRoute 1 none
    | some pool =>
      let sticky := getStickySession r1
      if isTcpUpgrade r1 then early .tcpHandoff 1 (some sticky)
      else if isWebSocketUpgrade r1 then early .websocketHandoff 1 (some sticky)
      else if !(pool.routeServiceUrl == "") && !env.routeServiceEnabled then
        early .unsupportedRouteService 1 (some sticky)
      else gatewayStage env pool sticky r1
  else early .unsupportedProtocol 0 none

/-- Lines 277-279: copy the backend response headers to the client —
for each key, one `rw.Header().Set(k, strings.Join(v, ","))`. -/
def copyJoinHeaders (init : RespHeader) (h : RespHeader) : RespHeader :=
  h.foldl (fun acc p => respSet acc p.1 (String.intercalate "," p.2)) init

/-- The retry-loop contract of one dispatch result: at most `maxRetries`
attempts; every attempt followed by a further attempt failed with a
retryable (dial) error; an attempt error not classified retryable is the
last attempt and becomes the dispatch's bad-gateway cause. -/
def RetryBound (res : ServeResult) : Prop :=
  res.trace.length ≤ maxRetries
  ∧ (∀ i, i + 1 < res.trace.length →
      ∃ p, res.trace.get? i = some p ∧
        ∃ e2, p.2 = Except.error e2 ∧ retryableError e2 = true)
  ∧ (∀ i p e2, res.trace.get? i = some p → p.2 = Except.error e2 →
      retryableError e2 = false →
      i + 1 = res.trace.length ∧ res.outcome = Outcome.badGateway e2)

/-! ## Concrete scenario inputs -/
/-- A plain HTTP/1.1 inbound request: no special headers, no cookies, the
URL host empty as for a server-parsed request. -/
def plainReq : Request :=
  ⟨1, 1, "app.example.com", "/", "/", "", "203.0.113.9:51000", false, [], []⟩

/-- A pool with no endpoints and no route service. -/
def c3Pool : Pool := ⟨[], ""⟩

/-- Environment whose registry resolves every URI to the empty pool.
`hasBeenToRouteService` follows the spec's prior-visit reading: a
signature header is carried and a route-service URL is declared. -/
def c3Env : Env :=
  ⟨fun _ => some c3Pool, false, true, false,
   fun u s => !(s == "") && !(u == ""),
   fun _ _ => none,
   fun u f => Except.ok ⟨u, "", "", f⟩,
   fun _ => Except.error (GoErr.mk "dial tcp: connection refused")⟩

/-- Endpoint of the route-service pool scenario. -/
def c1Endpoint : Endpoint := ⟨"app-guid-1", "instance-1", "10.0.0.1:8080"⟩

/-- Pool declaring a route-service URL. -/
def c1Pool : Pool := ⟨[c1Endpoint], "https://rs.example.com"⟩

def c1Resp : Response := ⟨200, [], [], "ok"⟩

/-- Environment for the first-encounter route-service scenario: the signer
succeeds with a concrete envelope; the request carries no signature, so
the spec-modelled prior-visit check is false. -/
def c1Env : Env :=
  ⟨fun _ => some c1Pool, false, true, false,
   fun u s => !(s == "") && !(u == ""),
   fun _ _ => none,
   fun u f => Except.ok ⟨u, "sig-1", "md-1", f⟩,
   fun _ => Except.ok c1Resp⟩

/-- Endpoint behind the WebSocket scenario pool. -/
def c2Endpoint : Endpoint := ⟨"app-guid-2", "instance-2", "10.0.0.2:9090"⟩

def c2Pool : Pool := ⟨[c2Endpoint], ""⟩

def c2Resp : Response := ⟨200, [], [], "hello"⟩

/-- A WebSocket upgrade request (`Upgrade: websocket`). -/
def c2Req : Request :=
  { plainReq with headers := [("Upgrade", "websocket"), ("Connection", "Upgrade")] }

def c2Env : Env :=
  ⟨fun _ => some c2Pool, false, true, false,
   fun u s => !(s == "") && !(u == ""),
   fun _ _ => none,
   fun u f => Except.ok ⟨u, "", "", f⟩,
   fun _ => Except.ok c2Resp⟩

/-! ## Witness scenario inputs -/
/-- Retry-scenario endpoints: the first connection is refused at dial
time, the second succeeds. -/
def c4Endpoint1 : Endpoint := ⟨"app-4", "i-41", "10.0.4.1:1111"⟩

def c4Endpoint2 : Endpoint := ⟨"app-4", "i-42", "10.0.4.2:2222"⟩

def c4Pool : Pool := ⟨[c4Endpoint1, c4Endpoint2], ""⟩

def c4Resp : Response := ⟨200, [], [], "ok"⟩

def c4Env : Env :=
  ⟨fun _ => some c4Pool, false, true, false,
   fun u s => !(s == "") && !(u == ""),
   fun _ _ => none,
   fun u f => Except.ok ⟨u, "", "", f⟩,
   fun r => if r.urlHost == "10.0.4.1:1111" then
       Except.error (GoErr.mk "dial tcp 10.0.4.1:1111: connection refused")
     else Except.ok c4Resp⟩

/-- Same registry, but every attempt fails with a non-dial error. -/
def c4EnvB : Env :=
  { c4Env with doRequest := fun _ => Except.error (GoErr.mk "unexpected EOF") }

def c5E1 : Endpoint := ⟨"app-5", "i-51", "10.0.5.1:1"⟩

def c5E2 : Endpoint := ⟨"app-5", "i-52", "10.0.5.2:1"⟩

def c5E3 : Endpoint := ⟨"app-5", "i-53", "10.0.5.3:1"⟩

def c5Pool : Pool := ⟨[c5E1, c5E2, c5E3], ""⟩

def c5Resp : Response := ⟨200, [("X-A", ["1"])], [], "from-e3"⟩

def c5Env : Env :=
  ⟨fun _ => some c5Pool, false, true, false,
   fun u s => !(s == "") && !(u == ""),
   fun _ _ => none,
   fun u f => Except.ok ⟨u, "", "", f⟩,
   fun r =>
     if r.urlHost == "10.0.5.1:1" then
       Except.error (GoErr.mk "dial tcp 10.0.5.1:1: connection refused")
     else if r.urlHost == "10.0.5.2:1" then
       Except.error (GoErr.mk "dial tcp 10.0.5.2:1: i/o timeout")
     else Except.ok c5Resp⟩

/-- An HTTP/2.0 request. -/
def c6Req : Request := { plainReq with protoMajor := 2, protoMinor := 0 }

/-- A request carrying both sticky-session cookies. -/
def c7Req : Request :=
  { plainReq with cookies := [("JSESSIONID", "s1"), ("__VCAP_ID__", "abc123")] }

/-- A request carrying the three route-service protocol headers from a
prior visit. -/
def c8Req : Request :=
  { plainReq with headers :=
      [("X-CF-Proxy-Signature", "prior-sig"),
       ("X-CF-Proxy-Metadata", "prior-md"),
       ("X-CF-Forwarded-Url", "http://app.example.com/")] }

def c8Endpoint : Endpoint := ⟨"app-8", "i-81", "10.0.8.1:1"⟩

def c8Pool : Pool := ⟨[c8Endpoint], "https://rs8.example.com"⟩

def c8Resp : Response := ⟨200, [], [], "backend"⟩

/-- Prior-visit environment whose validator rejects every signature. -/
def c8EnvBad : Env :=
  ⟨fun _ => some c8Pool, false, true, false,
   fun u s => !(s == "") && !(u == ""),
   fun _ _ => some (GoErr.mk "route service signature validation failed"),
   fun u f => Except.ok ⟨u, "", "", f⟩,
   fun _ => Except.ok c8Resp⟩

/-- Prior-visit environment whose validator accepts every signature. -/
def c8EnvOk : Env := { c8EnvBad with validateSignature := fun _ _ => none }

@[simp] theorem setHeaders_headers (r : Request) (h : ReqHeader) :
    (r.setHeaders h).headers = h := rfl

@[simp] theorem setHeaders_cookies (r : Request) (h : ReqHeader) :
    (r.setHeaders h).cookies = r.cookies := rfl

@[simp] theorem setHeaders_protoMajor (r : Request) (h : ReqHeader) :
    (r.setHeaders h).protoMajor = r.protoMajor := rfl

@[simp] theorem setHeaders_protoMinor (r : Request) (h : ReqHeader) :
    (r.setHeaders h).protoMinor = r.protoMinor := rfl

@[simp] theorem setHeaders_host (r : Request) (h : ReqHeader) :
    (r.setHeaders h).host = r.host := rfl

@[simp] theorem setHeaders_requestURI (r : Request) (h : ReqHeader) :
    (r.setHeaders h).requestURI = r.requestURI := rfl

@[simp] theorem setHeaders_escapedPath (r : Request) (h : ReqHeader) :
    (r.setHeaders h).escapedPath = r.escapedPath := rfl

@[simp] theorem setHeaders_urlHost (r : Request) (h : ReqHeader) :
    (r.setHeaders h).urlHost = r.urlHost := rfl

@[simp] theorem setHeaders_remoteAddr (r : Request) (h : ReqHeader) :
    (r.setHeaders h).remoteAddr = r.remoteAddr := rfl

@[simp] theorem setHeaders_tls (r : Request) (h : ReqHeader) :
    (r.setHeaders h).tls = r.tls := rfl

/-! ## Header-map lemmas -/
theorem hGet_hDel_self (h : ReqHeader) (k : String) : hGet (hDel h k) k = "" := by
  induction h with
  | nil => rfl
  | cons p t ih =>
    by_cases hk : p.1 == k
    · simp [hDel, hk, ih]
    · simp [hDel, hGet, hk, ih]

theorem hGet_hDel_ne (h : ReqHeader) (k k2 : String) (hk : (k2 == k) = false) :
    hGet (hDel h k2) k = hGet h k := by
  induction h with
  | nil => rfl
  | cons p t ih =>
    by_cases hp : p.1 == k2
    · have : (p.1 == k) = false := by
        have := eq_of_beq hp
        subst this
        exact hk
      simp [hDel, hGet, hp, this, ih]
    · simp [hDel, hGet, hp, ih]

theorem hGet_hSet_self (h : ReqHeader) (k v : String) :
    hGet (hSet h k v) k = v := by
  simp [hSet, hGet]

theorem hGet_hSet_ne (h : ReqHeader) (k k2 v : String) (hk : (k2 == k) = false) :
    hGet (hSet h k2 v) k = hGet h k := by
  simp [hSet, hGet, hk, hGet_hDel_ne h k k2 hk]

theorem hHas_hDel_self (h : ReqHeader) (k : String) : hHas (hDel h k) k = false := by
  induction h with
  | nil => rfl
  | cons p t ih =>
    by_cases hk : p.1 == k
    · simp [hDel, hk, ih]
    · simp [hDel, hHas, hk, ih]

theorem hHas_hDel_ne (h : ReqHeader) (k k2 : String) (hk : (k2 == k) = false) :
    hHas (hDel h k2) k = hHas h k := by
  induction h with
  | nil => rfl
  | cons p t ih =>
    by_cases hp : p.1 == k2
    · have : (p.1 == k) = false := by
        have := eq_of_beq hp
        subst this
        exact hk
      simp [hDel, hHas, hp, this, ih]
    · simp [hDel, hHas, hp, ih]

theorem hHas_hSet_ne (h : ReqHeader) (k k2 v : String) (hk : (k2 == k) = false) :
    hHas (hSet h k2 v) k = hHas h k := by
  simp [hSet, hHas, hk, hHas_hDel_ne h k k2 hk]

/-- Deleting a list of keys none of which is `k` leaves `hGet _ k` alone. -/
theorem hGet_foldl_hDel_ne (ks : List String) (h : ReqHeader) (k : String)
    (hk : ∀ k2 ∈ ks, (k2 == k) = false) :
    hGet (ks.foldl hDel h) k = hGet h k := by
  induction ks generalizing h with
  | nil => rfl
  | cons a t ih =>
    have ha := hk a (by simp)
    simp only [List.foldl_cons]
    rw [ih (hDel h a) (fun k2 hm => hk k2 (by simp [hm])), hGet_hDel_ne h k a ha]

/-! ## Normalization stages preserve the non-header request fields -/
@[simp] theorem applyXFF_cookies (r : Request) : (applyXFF r).cookies = r.cookies := by
  unfold applyXFF
  split <;> rfl

@[simp] theorem applyXFF_protoMajor (r : Request) :
    (applyXFF r).protoMajor = r.protoMajor := by
  unfold applyXFF
  split <;> rfl

@[simp] theorem applyXFF_protoMinor (r : Request) :
    (applyXFF r).protoMinor = r.protoMinor := by
  unfold applyXFF
  split <;> rfl

@[simp] theorem applyXFF_host (r : Request) : (applyXFF r).host = r.host := by
  unfold applyXFF
  split <;> rfl

@[simp] theorem applyXFF_requestURI (r : Request) :
    (applyXFF r).requestURI = r.requestURI := by
  unfold applyXFF
  split <;> rfl

@[simp] theorem applyXFF_escapedPath (r : Request) :
    (applyXFF r).escapedPath = r.escapedPath := by
  unfold applyXFF
  split <;> rfl

@[simp] theorem applyXFF_urlHost (r : Request) : (applyXFF r).urlHost = r.urlHost := by
  unfold applyXFF
  split <;> rfl

@[simp] theorem applyXFP_cookies (f : Bool) (r : Request) :
    (applyXFP f r).cookies = r.cookies := by
  unfold applyXFP
  split
  · rfl
  · split <;> rfl

@[simp] theorem applyXFP_protoMajor (f : Bool) (r : Request) :
    (applyXFP f r).protoMajor = r.protoMajor := by
  unfold applyXFP
  split
  · rfl
  · split <;> rfl

@[simp] theorem applyXFP_protoMinor (f : Bool) (r : Request) :
    (applyXFP f r).protoMinor = r.protoMinor := by
  unfold applyXFP
  split
  · rfl
  · split <;> rfl

@[simp] theorem applyXFP_host (f : Bool) (r : Request) :
    (applyXFP f r).host = r.host := by
  unfold applyXFP
  split
  · rfl
  · split <;> rfl

@[simp] theorem applyXFP_requestURI (f : Bool) (r : Request) :
    (applyXFP f r).requestURI = r.requestURI := by
  unfold applyXFP
  split
  · rfl
  · split <;> rfl

@[simp] theorem applyXFP_escapedPath (f : Bool) (r : Request) :
    (applyXFP f r).escapedPath = r.escapedPath := by
  unfold applyXFP
  split
  · rfl
  · split <;> rfl

@[simp] theorem applyXFP_urlHost (f : Bool) (r : Request) :
    (applyXFP f r).urlHost = r.urlHost := by
  unfold applyXFP
  split
  · rfl
  · split <;> rfl

@[simp] theorem stripHopHeaders_cookies (r : Request) :
    (stripHopHeaders r).cookies = r.cookies := rfl

@[simp] theorem stripHopHeaders_protoMajor (r : Request) :
    (stripHopHeaders r).protoMajor = r.protoMajor := rfl

@[simp] theorem stripHopHeaders_protoMinor (r : Request) :
    (stripHopHeaders r).protoMinor = r.protoMinor := rfl

@[simp] theorem stripHopHeaders_host (r : Request) :
    (stripHopHeaders r).host = r.host := rfl

@[simp] theorem stripHopHeaders_requestURI (r : Request) :
    (stripHopHeaders r).requestURI = r.requestURI := rfl

@[simp] theorem stripHopHeaders_escapedPath (r : Request) :
    (stripHopHeaders r).escapedPath = r.escapedPath := rfl

@[simp] theorem stripHopHeaders_urlHost (r : Request) :
    (stripHopHeaders r).urlHost = r.urlHost := rfl

theorem isProtocolSupported_applyXFF (r : Request) :
    isProtocolSupported (applyXFF (stripHopHeaders r)) = isProtocolSupported r := by
  simp [isProtocolSupported]

theorem requestUri_norm (f : Bool) (r : Request) :
    requestUri (applyXFP f (applyXFF (stripHopHeaders r))) = requestUri r := by
  simp [requestUri]

theorem getStickySession_norm (f : Bool) (r : Request) :
    getStickySession (applyXFP f (applyXFF (stripHopHeaders r))) = getStickySession r := by
  simp [getStickySession, Request.cookie]

/-! ## The upgrade branches are unreachable

Lines 104-106 delete every hop-by-hop header — `"Upgrade"` included —
from the request that `backendReq` aliases, before the upgrade
classification at lines 156-164 reads the same header. -/
theorem upgradeHeader_stripped (r : Request) :
    upgradeHeader (stripHopHeaders r) = "" := by
  simp only [upgradeHeader, stripHopHeaders, setHeaders_headers, hopHeaders,
    List.foldl_cons, List.foldl_nil]
  exact hGet_hDel_self _ _

theorem upgradeHeader_applyXFF (r : Request) :
    upgradeHeader (applyXFF r) = upgradeHeader r := by
  have hXff : (xForwardedForKey == "Upgrade") = false := by decide
  unfold applyXFF upgradeHeader
  split
  · rfl
  · simp [hGet_hSet_ne _ _ _ _ hXff]

theorem upgradeHeader_applyXFP (f : Bool) (r : Request) :
    upgradeHeader (applyXFP f r) = upgradeHeader r := by
  have hXfp : ("X-Forwarded-Proto" == "Upgrade") = false := by decide
  unfold applyXFP upgradeHeader
  split
  · simp [hGet_hSet_ne _ _ _ _ hXfp]
  · split
    · simp [hGet_hSet_ne _ _ _ _ hXfp]
    · rfl

theorem isTcpUpgrade_norm (f : Bool) (r : Request) :
    isTcpUpgrade (applyXFP f (applyXFF (stripHopHeaders r))) = false := by
  simp only [isTcpUpgrade, upgradeHeader_applyXFP, upgradeHeader_applyXFF,
    upgradeHeader_stripped]
  rfl

theorem isWebSocketUpgrade_norm (f : Bool) (r : Request) :
    isWebSocketUpgrade (applyXFP f (applyXFF (stripHopHeaders r))) = false := by
  simp only [isWebSocketUpgrade, upgradeHeader_applyXFP, upgradeHeader_applyXFF,
    upgradeHeader_stripped]
  rfl

/-- Case analysis of the dispatcher with the unreachable upgrade branches
eliminated and branch conditions expressed on the inbound request. -/
theorem serveHTTP_cases (env : Env) (req : Request) :
    serveHTTP env req =
      if isProtocolSupported req then
        match env.lookup (requestUri req) with
        | none => early .missingRoute 1 none
        | some pool =>
          if !(pool.routeServiceUrl == "") && !env.routeServiceEnabled then
            early .unsupportedRouteService 1 (some (getStickySession req))
          else
            gatewayStage env pool (getStickySession req)
              (applyXFP env.forceForwardedProtoHttps (applyXFF (stripHopHeaders req)))
      else early .unsupportedProtocol 0 none := by
  cases hp : isProtocolSupported req with
  | false =>
    simp [serveHTTP, isProtocolSupported_applyXFF, hp]
  | true =>
    simp only [serveHTTP, isProtocolSupported_applyXFF, hp, if_true,
      requestUri_norm, getStickySession_norm, isTcpUpgrade_norm,
      isWebSocketUpgrade_norm, Bool.false_eq_true, if_false]

/-! ## Retry-loop lemmas -/
/-- The loop issues at most `fuel` attempts. -/
theorem runLoop_length_le (env : Env) (b : Bool) :
    ∀ fuel eps r le, (runLoop env b fuel eps r le).trace.length ≤ fuel := by
  intro fuel
  induction fuel with
  | zero => intro eps r le; simp [runLoop]
  | succ n ih =>
    intro eps r le
    cases eps with
    | nil => simp [runLoop]
    | cons e rest =>
      simp only [runLoop]
      cases hdo : env.doRequest (attemptReq b r e) with
      | ok resp => simp
      | error er =>
        by_cases hr : retryableError er = true
        · simp only [hr, if_true, List.length_cons]
          have := ih rest (attemptReq b r e) (some er)
          omega
        · simp only [hr, if_false]
          simp

/-- Every hook counter of the loop equals the number of attempts. -/
theorem runLoop_counts (env : Env) (b : Bool) :
    ∀ fuel eps r le,
      (runLoop env b fuel eps r le).afterSel = (runLoop env b fuel eps r le).trace.length
      ∧ (runLoop env b fuel eps r le).pre = (runLoop env b fuel eps r le).trace.length
      ∧ (runLoop env b fuel eps r le).post = (runLoop env b fuel eps r le).trace.length := by
  intro fuel
  induction fuel with
  | zero => intro eps r le; simp [runLoop]
  | succ n ih =>
    intro eps r le
    cases eps with
    | nil => simp [runLoop]
    | cons e rest =>
      simp only [runLoop]
      cases hdo : env.doRequest (attemptReq b r e) with
      | ok resp => simp
      | error er =>
        by_cases hr : retryableError er = true
        · obtain ⟨h1, h2, h3⟩ := ih rest (attemptReq b r e) (some er)
          simp only [hr, if_true, List.length_cons]
          exact ⟨by omega, by omega, by omega⟩
        · simp only [hr, if_false]
          simp

/-- Each attempt that is followed by a further attempt failed with an error
classified retryable (its message contains `"dial"`). -/
theorem runLoop_mid_retryable (env : Env) (b : Bool) :
    ∀ fuel eps r le i,
      i + 1 < (runLoop env b fuel eps r le).trace.length →
      ∃ p, (runLoop env b fuel eps r le).trace.get? i = some p ∧
        ∃ e2, p.2 = Except.error e2 ∧ retryableError e2 = true := by
  intro fuel
  induction fuel with
  | zero => intro eps r le i h; simp [runLoop] at h
  | succ n ih =>
    intro eps r le i h
    cases eps with
    | nil => simp [runLoop] at h
    | cons e rest =>
      simp only [runLoop] at h ⊢
      cases hdo : env.doRequest (attemptReq b r e) with
      | ok resp => rw [hdo] at h; simp at h
      | error er =>
        rw [hdo] at h
        by_cases hr : retryableError er = true
        · simp only [hr, if_true] at h ⊢
          cases i with
          | zero => exact ⟨(attemptReq b r e, Except.error er), by simp, er, rfl, hr⟩
          | succ j =>
            simp only [List.length_cons] at h
            have h2 : j + 1 < (runLoop env b n rest (attemptReq b r e) (some er)).trace.length := by
              omega
            obtain ⟨p, hp, e2, he, hre⟩ := ih rest (attemptReq b r e) (some er) j h2
            exact ⟨p, by simpa using hp, e2, he, hre⟩
        · simp only [hr, if_false] at h
          simp at h

/-- An attempt error not classified retryable is the last attempt, and the
loop exits carrying exactly that error. -/
theorem runLoop_nonretryable_last (env : Env) (b : Bool) :
    ∀ fuel eps r le i p e2,
      (runLoop env b fuel eps r le).trace.get? i = some p →
      p.2 = Except.error e2 → retryableError e2 = false →
      i + 1 = (runLoop env b fuel eps r le).trace.length ∧
        (runLoop env b fuel eps r le).exit = LoopExit.fail e2 := by
  intro fuel
  induction fuel with
  | zero => intro eps r le i p e2 hp; simp [runLoop] at hp
  | succ n ih =>
    intro eps r le i p e2 hp hperr hre
    cases eps with
    | nil => simp [runLoop] at hp
    | cons e rest =>
      simp only [runLoop] at hp ⊢
      cases hdo : env.doRequest (attemptReq b r e) with
      | ok resp =>
        rw [hdo] at hp
        cases i with
        | zero =>
          simp at hp
          rw [← hp] at hperr
          simp at hperr
        | succ j => simp at hp
      | error er =>
        rw [hdo] at hp
        by_cases hr : retryableError er = true
        · simp only [hr, if_true] at hp ⊢
          cases i with
          | zero =>
            simp at hp
            rw [← hp] at hperr
            simp at hperr
            subst hperr
            rw [hr] at hre
            simp at hre
          | succ j =>
            simp only [List.get?_cons_succ] at hp
            obtain ⟨hl, he⟩ := ih rest (attemptReq b r e) (some er) j p e2 hp hperr hre
            constructor
            · simp only [List.length_cons]; omega
            · exact he
        · simp only [hr, if_false] at hp ⊢
          cases i with
          | zero =>
            simp at hp
            rw [← hp] at hperr
            simp at hperr
            subst hperr
            exact ⟨rfl, rfl⟩
          | succ j => simp at hp

/-! ## Attempt-request and stage lemmas -/
theorem attemptReq_headers (b : Bool) (r : Request) (e : Endpoint) :
    (attemptReq b r e).headers =
      hSet (hSet r.headers "X-CF-ApplicationID" e.applicationId) cfInstanceIdHeader
        (if e.privateInstanceId == "" then e.canonicalAddr else e.privateInstanceId) := by
  unfold attemptReq setupRequest
  cases b
  · rfl
  · rfl

theorem attemptReq_urlHost_backend (r : Request) (e : Endpoint) :
    (attemptReq true r e).urlHost = e.canonicalAddr := rfl

theorem attemptReq_urlHost_detour (r : Request) (e : Endpoint) :
    (attemptReq false r e).urlHost = r.urlHost := rfl

/-- The per-attempt preparation does not introduce a header key other than
the two selection headers. -/
theorem attemptReq_hHas (b : Bool) (r : Request) (e : Endpoint) (k : String)
    (h1 : (("X-CF-ApplicationID" : String) == k) = false)
    (h2 : ((cfInstanceIdHeader : String) == k) = false) :
    hHas (attemptReq b r e).headers k = hHas r.headers k := by
  rw [attemptReq_headers, hHas_hSet_ne _ _ _ _ h2, hHas_hSet_ne _ _ _ _ h1]

/-- A header key absent on loop entry and distinct from the two selection
headers is absent from every attempt snapshot. -/
theorem runLoop_hHas_false (env : Env) (b : Bool) (k : String)
    (h1 : (("X-CF-ApplicationID" : String) == k) = false)
    (h2 : ((cfInstanceIdHeader : String) == k) = false) :
    ∀ fuel eps r le, hHas r.headers k = false →
      ∀ p ∈ (runLoop env b fuel eps r le).trace, hHas p.1.headers k = false := by
  intro fuel
  induction fuel with
  | zero => intro eps r le hr p hp; simp [runLoop] at hp
  | succ n ih =>
    intro eps r le hr p hp
    cases eps with
    | nil => simp [runLoop] at hp
    | cons e rest =>
      have hatt : hHas (attemptReq b r e).headers k = false := by
        rw [attemptReq_hHas b r e k h1 h2]; exact hr
      simp only [runLoop] at hp
      cases hdo : env.doRequest (attemptReq b r e) with
      | ok resp =>
        rw [hdo] at hp
        simp at hp
        rw [hp]
        exact hatt
      | error er =>
        rw [hdo] at hp
        by_cases hrr : retryableError er = true
        · simp only [hrr, if_true, List.mem_cons] at hp
          cases hp with
          | inl hp => rw [hp]; exact hatt
          | inr hp => exact ih rest (attemptReq b r e) (some er) hatt p hp
        · simp only [hrr, if_false] at hp
          simp at hp
          rw [hp]
          exact hatt

theorem delRS_no_signature (r : Request) :
    hHas (delRouteServiceHeaders r).headers routeServiceSignature = false := by
  unfold delRouteServiceHeaders
  rw [setHeaders_headers,
    hHas_hDel_ne _ _ _ (by decide : (routeServiceForwardedUrl == routeServiceSignature) = false),
    hHas_hDel_ne _ _ _ (by decide : (routeServiceMetadata == routeServiceSignature) = false)]
  exact hHas_hDel_self _ _

theorem delRS_no_metadata (r : Request) :
    hHas (delRouteServiceHeaders r).headers routeServiceMetadata = false := by
  unfold delRouteServiceHeaders
  rw [setHeaders_headers,
    hHas_hDel_ne _ _ _ (by decide : (routeServiceForwardedUrl == routeServiceMetadata) = false)]
  exact hHas_hDel_self _ _

theorem delRS_no_forwarded (r : Request) :
    hHas (delRouteServiceHeaders r).headers routeServiceForwardedUrl = false := by
  unfold delRouteServiceHeaders
  rw [setHeaders_headers]
  exact hHas_hDel_self _ _

theorem loopStage_trace (env : Env) (b : Bool) (s : String) (pool : Pool) (r : Request) :
    (loopStage env b s pool r).trace =
      (runLoop env b maxRetries pool.endpoints r none).trace := by
  unfold loopStage
  cases h : (runLoop env b maxRetries pool.endpoints r none).exit <;> simp [h]

theorem loopStage_stickyId (env : Env) (b : Bool) (s : String) (pool : Pool) (r : Request) :
    (loopStage env b s pool r).stickyId = some s := by
  unfold loopStage
  cases h : (runLoop env b maxRetries pool.endpoints r none).exit <;> simp [h]

theorem gatewayStage_stickyId (env : Env) (pool : Pool) (s : String) (r : Request) :
    (gatewayStage env pool s r).stickyId = some s := by
  unfold gatewayStage
  split
  · exact loopStage_stickyId env true s pool _
  · split
    · split
      · rfl
      · exact loopStage_stickyId env true s pool _
    · split
      · rfl
      · exact loopStage_stickyId env false s pool _

theorem early_nextCalls (o : Outcome) (l : Nat) (s : Option String)
    (ho : o.isSuccess = false) :
    (early o l s).nextCalls = (if (early o l s).outcome.isSuccess then 1 else 0) := by
  simp [early, ho]

theorem loopStage_nextCalls (env : Env) (b : Bool) (s : String) (pool : Pool) (r : Request) :
    (loopStage env b s pool r).nextCalls =
      (if (loopStage env b s pool r).outcome.isSuccess then 1 else 0) := by
  unfold loopStage
  cases h : (runLoop env b maxRetries pool.endpoints r none).exit <;>
    simp [h, Outcome.isSuccess]

theorem gatewayStage_nextCalls (env : Env) (pool : Pool) (s : String) (r : Request) :
    (gatewayStage env pool s r).nextCalls =
      (if (gatewayStage env pool s r).outcome.isSuccess then 1 else 0) := by
  unfold gatewayStage
  split
  · exact loopStage_nextCalls env true s pool r
  · split
    · split
      · exact early_nextCalls _ _ _ rfl
      · exact loopStage_nextCalls env true s pool _
    · split
      · exact early_nextCalls _ _ _ rfl
      · exact loopStage_nextCalls env false s pool _

theorem retryBound_early (o : Outcome) (l : Nat) (s : Option String) :
    RetryBound (early o l s) := by
  refine ⟨by simp [early, maxRetries], ?_, ?_⟩
  · intro i h
    simp [early] at h
  · intro i p e2 hp hpe hre
    simp [early] at hp

theorem retryBound_loopStage (env : Env) (b : Bool) (s : String) (pool : Pool)
    (r : Request) : RetryBound (loopStage env b s pool r) := by
  have ht := loopStage_trace env b s pool r
  refine ⟨?_, ?_, ?_⟩
  · rw [ht]
    exact runLoop_length_le env b _ _ _ _
  · intro i h
    rw [ht] at h ⊢
    exact runLoop_mid_retryable env b _ _ _ _ i h
  · intro i p e2 hp hpe hre
    rw [ht] at hp
    obtain ⟨hlen, hex⟩ := runLoop_nonretryable_last env b _ _ _ _ i p e2 hp hpe hre
    refine ⟨by rw [ht]; exact hlen, ?_⟩
    unfold loopStage
    cases hx : (runLoop env b maxRetries pool.endpoints r none).exit with
    | ok resp =>
      rw [hx] at hex
      simp at hex
    | fail e =>
      rw [hx] at hex
      injection hex with hh
      subst hh
      simp [hx]

theorem retryBound_gateway (env : Env) (pool : Pool) (s : String) (r : Request) :
    RetryBound (gatewayStage env pool s r) := by
  unfold gatewayStage
  split
  · exact retryBound_loopStage env true s pool r
  · split
    · split
      · exact retryBound_early _ _ _
      · exact retryBound_loopStage env true s pool _
    · split
      · exact retryBound_early _ _ _
      · exact retryBound_loopStage env false s pool _

/-! ## Claim theorems -/
/-- C4: in the retry loop at most 3 backend attempts ever occur; a failed
attempt is followed by another attempt only if the error's message contains
the dial indication (`retryableError`); an attempt error not so classified
ends the loop immediately with that error as the dispatch outcome. -/
theorem c4_retry_bound_and_classification (env : Env) (req : Request) :
    (serveHTTP env req).trace.length ≤ maxRetries
    ∧ (∀ i, i + 1 < (serveHTTP env req).trace.length →
        ∃ p, (serveHTTP env req).trace.get? i = some p ∧
          ∃ e2, p.2 = Except.error e2 ∧ retryableError e2 = true)
    ∧ (∀ i p e2, (serveHTTP env req).trace.get? i = some p →
        p.2 = Except.error e2 → retryableError e2 = false →
        i + 1 = (serveHTTP env req).trace.length ∧
          (serveHTTP env req).outcome = Outcome.badGateway e2) := by
  have h : RetryBound (serveHTTP env req) := by
    rw [serveHTTP_cases]
    by_cases hp : isProtocolSupported req = true
    · simp only [hp, if_true]
      cases hl : env.lookup (requestUri req) with
      | none => exact retryBound_early _ _ _
      | some pool =>
        by_cases hc : (!(pool.routeServiceUrl == "") && !env.routeServiceEnabled) = true
        · simp only [hc, if_true]
          exact retryBound_early _ _ _
        · simp only [Bool.not_eq_true] at hc
          simp only [hc, Bool.false_eq_true, if_false]
          exact retryBound_gateway _ _ _ _
    · simp only [Bool.not_eq_true] at hp
      simp only [hp, Bool.false_eq_true, if_false]
      exact retryBound_early _ _ _
  exact h

/-- C9: the continuation (`next`) runs exactly once on the full success
path and never on any failure branch. -/
theorem c9_continuation_iff_success (env : Env) (req : Request) :
    (serveHTTP env req).nextCalls =
      (if (serveHTTP env req).outcome.isSuccess then 1 else 0) := by
  rw [serveHTTP_cases]
  by_cases hp : isProtocolSupported req = true
  · simp only [hp, if_true]
    cases hl : env.lookup (requestUri req) with
    | none => exact early_nextCalls _ _ _ rfl
    | some pool =>
      by_cases hc : (!(pool.routeServiceUrl == "") && !env.routeServiceEnabled) = true
      · simp only [hc, if_true]
        exact early_nextCalls _ _ _ rfl
      · simp only [Bool.not_eq_true] at hc
        simp only [hc, Bool.false_eq_true, if_false]
        exact gatewayStage_nextCalls _ _ _ _
  · simp only [Bool.not_eq_true] at hp
    simp only [hp, Bool.false_eq_true, if_false]
    exact early_nextCalls _ _ _ rfl

/-- C6: a request whose protocol is not HTTP/1.0 or HTTP/1.1 gets the
unsupported-protocol failure with no registry lookup and no backend
attempt. -/
theorem c6_unsupported_protocol (env : Env) (req : Request)
    (hp : req.protoMajor ≠ 1 ∨ (req.protoMinor ≠ 0 ∧ req.protoMinor ≠ 1)) :
    (serveHTTP env req).outcome = Outcome.unsupportedProtocol
    ∧ (serveHTTP env req).lookups = 0
    ∧ (serveHTTP env req).trace = []
    ∧ (serveHTTP env req).pre = 0
    ∧ (serveHTTP env req).post = 0 := by
  have hb : isProtocolSupported req = false := by
    unfold isProtocolSupported
    rcases hp with h | ⟨h0, h1⟩
    · have : (req.protoMajor == 1) = false := by
        simp [h]
      simp [this]
    · have e0 : (req.protoMinor == 0) = false := by simp [h0]
      have e1 : (req.protoMinor == 1) = false := by simp [h1]
      simp [e0, e1]
  rw [serveHTTP_cases]
  simp only [hb, Bool.false_eq_true, if_false]
  exact ⟨rfl, rfl, rfl, rfl, rfl⟩

/-- C7: the sticky-session resolver returns the affinity cookie's value
exactly when both the marker cookie and the affinity cookie are present,
`""` when either is missing, and the iterator is constructed with that
value. -/
theorem c7_sticky_session (env : Env) (req : Request) (pool : Pool) :
    (∀ m a, req.cookie stickyCookieKey = some m →
      req.cookie vcapCookieId = some a → getStickySession req = a.2)
    ∧ (req.cookie stickyCookieKey = none → getStickySession req = "")
    ∧ (req.cookie vcapCookieId = none → getStickySession req = "")
    ∧ (isProtocolSupported req = true → env.lookup (requestUri req) = some pool →
      (serveHTTP env req).stickyId = some (getStickySession req)) := by
  refine ⟨?_, ?_, ?_, ?_⟩
  · intro m a hm ha
    unfold getStickySession
    rw [hm, ha]
  · intro hm
    unfold getStickySession
    rw [hm]
  · intro ha
    unfold getStickySession
    cases hm : req.cookie stickyCookieKey with
    | none => rfl
    | some m => rw [ha]
  · intro hp hl
    rw [serveHTTP_cases]
    simp only [hp, if_true, hl]
    by_cases hc : (!(pool.routeServiceUrl == "") && !env.routeServiceEnabled) = true
    · simp only [hc, if_true]
      rfl
    · simp only [Bool.not_eq_true] at hc
      simp only [hc, Bool.false_eq_true, if_false]
      exact gatewayStage_stickyId _ _ _ _

/-- An exhausted iterator ends the loop on its first advance. -/
theorem runLoop_nil (env : Env) (b : Bool) (r : Request) (le : Option GoErr) :
    runLoop env b maxRetries [] r le =
      ⟨LoopExit.fail GoErr.noEndpointsAvailable, [], 0, 0, 0⟩ := rfl

/-- C3 (amended): with an immediately exhausted iterator, zero attempts
occur and no hook fires, and the dispatch delivers the
`NoEndpointsAvailable` error through the bad-gateway responder
(`HandleBadGateway`). -/
theorem c3_no_endpoints_amended (env : Env) (req : Request) (pool : Pool)
    (hp : isProtocolSupported req = true)
    (hl : env.lookup (requestUri req) = some pool)
    (hrs : pool.routeServiceUrl = "")
    (he : pool.endpoints = []) :
    (serveHTTP env req).trace = []
    ∧ (serveHTTP env req).pre = 0
    ∧ (serveHTTP env req).post = 0
    ∧ (serveHTTP env req).afterSel = 0
    ∧ (serveHTTP env req).outcome = Outcome.badGateway GoErr.noEndpointsAvailable := by
  rw [serveHTTP_cases]
  simp only [hp, if_true, hl]
  have hc : (!(pool.routeServiceUrl == "") && !env.routeServiceEnabled) = false := by
    simp [hrs]
  simp only [hc, Bool.false_eq_true, if_false]
  unfold gatewayStage
  have h0 : (pool.routeServiceUrl == "") = true := by simp [hrs]
  simp only [h0, if_true]
  unfold loopStage
  rw [he, runLoop_nil]
  exact ⟨rfl, rfl, rfl, rfl, rfl⟩

/-- C3 (counterexample): with an immediately exhausted iterator the
dispatcher invokes the bad-gateway responder carrying the
`NoEndpointsAvailable` error — not the dedicated no-endpoints responder
the claim describes. -/
theorem c3_no_endpoints_counterexample :
    (serveHTTP c3Env plainReq).outcome = Outcome.badGateway GoErr.noEndpointsAvailable
    ∧ (serveHTTP c3Env plainReq).outcome ≠ Outcome.noEndpoints
    ∧ (serveHTTP c3Env plainReq).trace = [] := by
  refine ⟨rfl, by decide, rfl⟩

/-- C3 witness: the amended statement holds on the concrete empty pool. -/
theorem c3_no_endpoints_witness :
    (serveHTTP c3Env plainReq).pre = 0
    ∧ (serveHTTP c3Env plainReq).outcome =
        Outcome.badGateway GoErr.noEndpointsAvailable :=
  ⟨(c3_no_endpoints_amended c3Env plainReq c3Pool rfl rfl rfl rfl).2.1,
   (c3_no_endpoints_amended c3Env plainReq c3Pool rfl rfl rfl rfl).2.2.2.2⟩

/-- C1 (evaluation at the failing input): on a first-encounter
route-service request the single outbound attempt carries all three
route-service protocol headers, but its destination is the inbound
request's URL host (empty), not the route-service URL and not a pool
endpoint's address — `routeServiceArgs` is never used to redirect the
destination, `backend = false` merely skips the endpoint-address
assignment. -/
theorem c1_route_service_first_encounter :
    ((serveHTTP c1Env plainReq).trace.map (fun p =>
      (hGet p.1.headers routeServiceSignature,
       hGet p.1.headers routeServiceMetadata,
       hGet p.1.headers routeServiceForwardedUrl,
       p.1.urlHost))) =
      [("sig-1", "md-1", "http://app.example.com/", "")]
    ∧ (serveHTTP c1Env plainReq).trace.all
        (fun p => !(p.1.urlHost == c1Pool.routeServiceUrl)
          && !(p.1.urlHost == c1Endpoint.canonicalAddr)) = true
    ∧ (serveHTTP c1Env plainReq).trace.length = 1 := by
  refine ⟨rfl, by decide, rfl⟩

/-- C2 (evaluation at the failing input): the inbound request is a
WebSocket upgrade by the source's own classifier, yet the dispatch never
reaches the WebSocket hand-off — the hop-by-hop strip at lines 104-106
removed `Upgrade` from the aliased request before the classification at
lines 156-164, so the request runs through the normal retry loop (one
attempt) and ends in the plain success path. -/
theorem c2_websocket_upgrade_not_handed_off :
    isWebSocketUpgrade c2Req = true
    ∧ (serveHTTP c2Env c2Req).outcome = Outcome.success c2Resp
    ∧ (serveHTTP c2Env c2Req).outcome ≠ Outcome.websocketHandoff
    ∧ (serveHTTP c2Env c2Req).trace.length = 1 := by
  refine ⟨rfl, rfl, by decide, rfl⟩

/-- Three-iteration computation of the retry loop: two retryable failures
followed by a success. -/
theorem runLoop_three (env : Env) (e1 e2 e3 : Endpoint) (rr : Request)
    (d1 d2 : GoErr) (resp : Response)
    (ha1 : env.doRequest (attemptReq true rr e1) = Except.error d1)
    (hd1 : retryableError d1 = true)
    (ha2 : env.doRequest (attemptReq true (attemptReq true rr e1) e2) = Except.error d2)
    (hd2 : retryableError d2 = true)
    (ha3 : env.doRequest
        (attemptReq true (attemptReq true (attemptReq true rr e1) e2) e3) =
      Except.ok resp) :
    runLoop env true maxRetries [e1, e2, e3] rr none =
      ⟨LoopExit.ok resp,
        [(attemptReq true rr e1, Except.error d1),
         (attemptReq true (attemptReq true rr e1) e2, Except.error d2),
         (attemptReq true (attemptReq true (attemptReq true rr e1) e2) e3,
           Except.ok resp)],
        3, 3, 3⟩ := by
  show runLoop env true (Nat.succ (Nat.succ (Nat.succ 0))) [e1, e2, e3] rr none = _
  simp only [runLoop, ha1, hd1, if_true, ha2, hd2, ha3]

/-- C5: an iterator yielding E1 (dial error), E2 (dial error), E3
(success) produces exactly 3 attempts, the final outcome is E3's response,
and the post-attempt and after-selection hooks each fire exactly 3 times. -/
theorem c5_three_attempt_scenario (env : Env) (req : Request) (pool : Pool)
    (e1 e2 e3 : Endpoint) (d1 d2 : GoErr) (resp : Response)
    (hp : isProtocolSupported req = true)
    (hl : env.lookup (requestUri req) = some pool)
    (hrs : pool.routeServiceUrl = "")
    (heps : pool.endpoints = [e1, e2, e3])
    (h1 : ∀ r, r.urlHost = e1.canonicalAddr → env.doRequest r = Except.error d1)
    (hd1 : retryableError d1 = true)
    (h2 : ∀ r, r.urlHost = e2.canonicalAddr → env.doRequest r = Except.error d2)
    (hd2 : retryableError d2 = true)
    (h3 : ∀ r, r.urlHost = e3.canonicalAddr → env.doRequest r = Except.ok resp) :
    (serveHTTP env req).trace.length = 3
    ∧ (serveHTTP env req).outcome = Outcome.success resp
    ∧ (serveHTTP env req).post = 3
    ∧ (serveHTTP env req).afterSel = 3 := by
  rw [serveHTTP_cases]
  simp only [hp, if_true, hl]
  have hc : (!(pool.routeServiceUrl == "") && !env.routeServiceEnabled) = false := by
    simp [hrs]
  simp only [hc, Bool.false_eq_true, if_false]
  unfold gatewayStage
  have h0 : (pool.routeServiceUrl == "") = true := by simp [hrs]
  simp only [h0, if_true]
  unfold loopStage
  rw [heps]
  have hrun := runLoop_three env e1 e2 e3
    (applyXFP env.forceForwardedProtoHttps (applyXFF (stripHopHeaders req))) d1 d2 resp
    (h1 _ (attemptReq_urlHost_backend _ e1)) hd1
    (h2 _ (attemptReq_urlHost_backend _ e2)) hd2
    (h3 _ (attemptReq_urlHost_backend _ e3))
  rw [hrun]
  exact ⟨rfl, rfl, rfl, rfl⟩

/-- Header keys distinct from `X-Forwarded-For`, `X-Forwarded-Proto` and
every hop-by-hop header read the same value after normalization. -/
theorem hGet_norm_other (f : Bool) (r : Request) (k : String)
    (hk1 : (xForwardedForKey == k) = false)
    (hk2 : (("X-Forwarded-Proto" : String) == k) = false)
    (hk3 : ∀ k2 ∈ hopHeaders, (k2 == k) = false) :
    hGet (applyXFP f (applyXFF (stripHopHeaders r))).headers k = hGet r.headers k := by
  have hstrip : hGet (stripHopHeaders r).headers k = hGet r.headers k := by
    unfold stripHopHeaders
    rw [setHeaders_headers]
    exact hGet_foldl_hDel_ne _ _ _ hk3
  have hxff : hGet (applyXFF (stripHopHeaders r)).headers k
      = hGet (stripHopHeaders r).headers k := by
    unfold applyXFF
    split
    · rfl
    · rw [setHeaders_headers, hGet_hSet_ne _ _ _ _ hk1]
  have hxfp : hGet (applyXFP f (applyXFF (stripHopHeaders r))).headers k
      = hGet (applyXFF (stripHopHeaders r)).headers k := by
    unfold applyXFP
    split
    · rw [setHeaders_headers, hGet_hSet_ne _ _ _ _ hk2]
    · split
      · rw [setHeaders_headers, hGet_hSet_ne _ _ _ _ hk2]
      · rfl
  rw [hxfp, hxff, hstrip]

/-- C8: on a route-service pool with a prior-visit signature, a failing
validation delivers the bad-signature failure carrying the validator's
cause with no backend attempt; a succeeding validation strips the three
route-service protocol headers, so no attempt snapshot ever carries any of
them. -/
theorem c8_route_service_prior_visit (env : Env) (req : Request) (pool : Pool)
    (hp : isProtocolSupported req = true)
    (hl : env.lookup (requestUri req) = some pool)
    (hrs : pool.routeServiceUrl ≠ "")
    (hen : env.routeServiceEnabled = true)
    (hvisit : env.hasBeenToRouteService pool.routeServiceUrl
        (hGet req.headers routeServiceSignature) = true) :
    (∀ e2, (∀ hs u, env.validateSignature hs u = some e2) →
      (serveHTTP env req).outcome = Outcome.badSignature e2
      ∧ (serveHTTP env req).trace = [])
    ∧ ((∀ hs u, env.validateSignature hs u = none) →
      ∀ p ∈ (serveHTTP env req).trace,
        hHas p.1.headers routeServiceSignature = false
        ∧ hHas p.1.headers routeServiceMetadata = false
        ∧ hHas p.1.headers routeServiceForwardedUrl = false) := by
  have hserve : serveHTTP env req = gatewayStage env pool (getStickySession req)
      (applyXFP env.forceForwardedProtoHttps (applyXFF (stripHopHeaders req))) := by
    rw [serveHTTP_cases]
    simp only [hp, if_true, hl]
    have hc : (!(pool.routeServiceUrl == "") && !env.routeServiceEnabled) = false := by
      simp [hen]
    simp only [hc, Bool.false_eq_true, if_false]
  have hsig : hGet (applyXFP env.forceForwardedProtoHttps
        (applyXFF (stripHopHeaders req))).headers routeServiceSignature
      = hGet req.headers routeServiceSignature :=
    hGet_norm_other _ _ _ (by decide) (by decide) (by decide)
  have h0 : (pool.routeServiceUrl == "") = false := by
    simp [hrs]
  constructor
  · intro e2 hval
    rw [hserve]
    unfold gatewayStage
    simp only [h0, Bool.false_eq_true, if_false, hsig, hvisit, if_true, hval]
    exact ⟨rfl, rfl⟩
  · intro hval p hmem
    rw [hserve] at hmem
    unfold gatewayStage at hmem
    simp only [h0, Bool.false_eq_true, if_false, hsig, hvisit, if_true, hval] at hmem
    rw [loopStage_trace] at hmem
    refine ⟨?_, ?_, ?_⟩
    · exact runLoop_hHas_false env true routeServiceSignature (by decide) (by decide)
        maxRetries pool.endpoints _ none (delRS_no_signature _) p hmem
    · exact runLoop_hHas_false env true routeServiceMetadata (by decide) (by decide)
        maxRetries pool.endpoints _ none (delRS_no_metadata _) p hmem
    · exact runLoop_hHas_false env true routeServiceForwardedUrl (by decide) (by decide)
        maxRetries pool.endpoints _ none (delRS_no_forwarded _) p hmem

/-! ## Response-header copy lemmas -/
theorem respDel_filter_self (h : RespHeader) (k : String) :
    (respDel h k).filter (fun p => p.1 == k) = [] := by
  induction h with
  | nil => rfl
  | cons p t ih =>
    by_cases hp : p.1 == k
    · simp [respDel, hp, ih]
    · simp [respDel, List.filter_cons, hp, ih]

theorem respDel_filter_ne (h : RespHeader) (k k2 : String)
    (hk : (k2 == k) = false) :
    (respDel h k2).filter (fun p => p.1 == k) = h.filter (fun p => p.1 == k) := by
  induction h with
  | nil => rfl
  | cons p t ih =>
    by_cases hp : p.1 == k2
    · have : (p.1 == k) = false := by
        have := eq_of_beq hp
        subst this
        exact hk
      simp [respDel, List.filter_cons, hp, this, ih]
    · simp [respDel, List.filter_cons, hp, ih]

theorem respSet_filter_self (h : RespHeader) (k v : String) :
    (respSet h k v).filter (fun p => p.1 == k) = [(k, [v])] := by
  simp [respSet, List.filter_cons, respDel_filter_self]

theorem respSet_filter_ne (h : RespHeader) (k k2 v : String)
    (hk : (k2 == k) = false) :
    (respSet h k2 v).filter (fun p => p.1 == k) = h.filter (fun p => p.1 == k) := by
  simp [respSet, List.filter_cons, hk, respDel_filter_ne _ _ _ hk]

/-- Folding the copy loop over headers whose keys avoid `k` leaves the
client's entries for `k` unchanged. -/
theorem copyJoin_filter_not_mem (t : RespHeader) (init : RespHeader) (k : String)
    (hk : k ∉ t.map Prod.fst) :
    (copyJoinHeaders init t).filter (fun p => p.1 == k) =
      init.filter (fun p => p.1 == k) := by
  induction t generalizing init with
  | nil => rfl
  | cons a t2 ih =>
    have hk2 : k ∉ t2.map Prod.fst := by
      intro hmem
      exact hk (by simp [hmem])
    have ha : (a.1 == k) = false := by
      by_cases h : a.1 = k
      · exact absurd (by simp [h]) hk
      · simp [h]
    show (copyJoinHeaders (respSet init a.1 (String.intercalate "," a.2)) t2).filter
        (fun p => p.1 == k) = _
    rw [ih _ hk2, respSet_filter_ne _ _ _ _ ha]

/-- C10: the copy loop at lines 277-279 writes each backend response
header key as a single `Set` of the comma-joined value list — a
multi-valued header reaches the client as exactly one header line, never
as repeated separate lines. -/
theorem c10_response_header_join (init h : RespHeader) (k : String) (vs : List String)
    (hnd : (h.map Prod.fst).Nodup)
    (hmem : (k, vs) ∈ h)
    (_hlen : 1 < vs.length) :
    (copyJoinHeaders init h).filter (fun p => p.1 == k) =
      [(k, [String.intercalate "," vs])] := by
  induction h generalizing init with
  | nil => cases hmem
  | cons a t ih =>
    rw [List.map_cons, List.nodup_cons] at hnd
    obtain ⟨hna, hnt⟩ := hnd
    show (copyJoinHeaders (respSet init a.1 (String.intercalate "," a.2)) t).filter
        (fun p => p.1 == k) = _
    rcases List.mem_cons.mp hmem with heq | hmemt
    · have hk : k ∉ t.map Prod.fst := by
        rw [← heq] at hna
        simpa using hna
      rw [copyJoin_filter_not_mem t _ k hk, ← heq, respSet_filter_self]
    · exact ih _ hnt hmemt

/-- C4 witness: a dial failure is retried (attempt 0 errs retryably and a
second attempt follows), and a non-dial failure ends the dispatch as the
bad-gateway outcome carrying it. -/
theorem c4_retry_witness :
    (serveHTTP c4Env plainReq).trace.length ≤ maxRetries
    ∧ (∃ p, (serveHTTP c4Env plainReq).trace.get? 0 = some p ∧
        ∃ e2, p.2 = Except.error e2 ∧ retryableError e2 = true)
    ∧ (serveHTTP c4EnvB plainReq).outcome =
        Outcome.badGateway (GoErr.mk "unexpected EOF") :=
  ⟨(c4_retry_bound_and_classification c4Env plainReq).1,
   (c4_retry_bound_and_classification c4Env plainReq).2.1 0 (by decide),
   ((c4_retry_bound_and_classification c4EnvB plainReq).2.2 0
     ((serveHTTP c4EnvB plainReq).trace.headD
       (plainReq, Except.error GoErr.noEndpointsAvailable))
     (GoErr.mk "unexpected EOF") rfl rfl (by decide)).2⟩

/-- C5 witness: the E1/E2 dial-error, E3 success scenario at concrete
endpoints. -/
theorem c5_three_attempt_witness :
    (serveHTTP c5Env plainReq).trace.length = 3
    ∧ (serveHTTP c5Env plainReq).outcome = Outcome.success c5Resp
    ∧ (serveHTTP c5Env plainReq).post = 3
    ∧ (serveHTTP c5Env plainReq).afterSel = 3 :=
  c5_three_attempt_scenario c5Env plainReq c5Pool c5E1 c5E2 c5E3
    (GoErr.mk "dial tcp 10.0.5.1:1: connection refused")
    (GoErr.mk "dial tcp 10.0.5.2:1: i/o timeout") c5Resp
    rfl rfl rfl rfl
    (fun r hr => by simp [c5Env, hr, c5E1]) (by decide)
    (fun r hr => by simp [c5Env, hr, c5E2]) (by decide)
    (fun r hr => by simp [c5Env, hr, c5E3])

/-- C6 witness: the HTTP/2.0 request is rejected before any lookup. -/
theorem c6_unsupported_protocol_witness :
    (serveHTTP c3Env c6Req).outcome = Outcome.unsupportedProtocol
    ∧ (serveHTTP c3Env c6Req).lookups = 0
    ∧ (serveHTTP c3Env c6Req).trace = [] :=
  ⟨(c6_unsupported_protocol c3Env c6Req (Or.inl (by decide))).1,
   (c6_unsupported_protocol c3Env c6Req (Or.inl (by decide))).2.1,
   (c6_unsupported_protocol c3Env c6Req (Or.inl (by decide))).2.2.1⟩

/-- C7 witness: both cookies present yields the affinity value as the
resolver result and as the iterator's sticky id. -/
theorem c7_sticky_session_witness :
    getStickySession c7Req = "abc123"
    ∧ (serveHTTP c3Env c7Req).stickyId = some (getStickySession c7Req) :=
  ⟨(c7_sticky_session c3Env c7Req c3Pool).1 ("JSESSIONID", "s1")
      ("__VCAP_ID__", "abc123") rfl rfl,
   (c7_sticky_session c3Env c7Req c3Pool).2.2.2 rfl rfl⟩

/-- C8 witness: rejection delivers the validator's cause with no attempt;
acceptance sends the attempt without the signature header. -/
theorem c8_route_service_prior_visit_witness :
    ((serveHTTP c8EnvBad c8Req).outcome =
        Outcome.badSignature (GoErr.mk "route service signature validation failed")
      ∧ (serveHTTP c8EnvBad c8Req).trace = [])
    ∧ hHas ((serveHTTP c8EnvOk c8Req).trace.headD
        (plainReq, Except.error GoErr.noEndpointsAvailable)).1.headers
        routeServiceSignature = false :=
  ⟨(c8_route_service_prior_visit c8EnvBad c8Req c8Pool rfl rfl (by decide) rfl
      (by decide)).1
      (GoErr.mk "route service signature validation failed") (fun _ _ => rfl),
   ((c8_route_service_prior_visit c8EnvOk c8Req c8Pool rfl rfl (by decide) rfl
      (by decide)).2 (fun _ _ => rfl) _
      (List.get?_mem (show (serveHTTP c8EnvOk c8Req).trace.get? 0 =
        some ((serveHTTP c8EnvOk c8Req).trace.headD
          (plainReq, Except.error GoErr.noEndpointsAvailable)) from rfl))).1⟩

/-- C10 witness: a two-valued header collapses to one comma-joined line. -/
theorem c10_response_header_join_witness :
    (copyJoinHeaders [] [("X-A", ["1", "2"]), ("X-B", ["z"])]).filter
        (fun p => p.1 == "X-A") = [("X-A", ["1,2"])] :=
  c10_response_header_join [] [("X-A", ["1", "2"]), ("X-B", ["z"])] "X-A" ["1", "2"]
    (by decide) (by decide) (by decide)
